import Mathlib

/-!
Shallow embedding of the SceneManager class of this repository
(react-PIXI-RPGMakerMV-test).  The JavaScript class is a static singleton
holding mutable fields; here every static field becomes a field of an
explicit state record, and every method becomes a function from state to
state paired with a trace of the externally observable calls it makes
(scene lifecycle methods, render/audio collaborator calls, frame
scheduling, window.close).  Machine time (performance.now) is modelled
with rationals; scene objects are modelled by their constructor identity
together with the values their isBusy/isReady predicates return when the
manager queries them.
-/

namespace SM

/-- A scene instance as the manager observes it: its constructor identity
(JS `scene.constructor`, used for the navigation stack and
`_previousClass`), and the answers of its two polled predicates. -/
structure Scene where
  ctor : Nat
  isBusy : Bool
  isReady : Bool
  deriving DecidableEq, Repr

/-- Externally observable calls made by SceneManager methods. -/
inductive Event where
  /-- `scene.stop()` on the scene with this constructor identity. -/
  | stop (c : Nat)
  /-- `scene.terminate()`. -/
  | terminate (c : Nat)
  /-- `scene.create()`. -/
  | create (c : Nat)
  /-- `scene.start()`. -/
  | start (c : Nat)
  /-- `scene.update()`. -/
  | update (c : Nat)
  /-- `ReactPIXI.render(React.createElement(sceneClass), renderelement)`
  performed by `goto` on a non-null scene class. -/
  | reactRender (c : Nat)
  /-- `Input.update()` via `updateInputData`. -/
  | inputUpdate
  /-- `Graphics.startLoading()` via `onSceneCreate`. -/
  | startLoading
  /-- `Graphics.endLoading()` via `onSceneStart`. -/
  | endLoading
  /-- `Graphics.updateLoading()` via `onSceneLoading`. -/
  | updateLoading
  /-- `Graphics.render(scene)`. -/
  | render (c : Nat)
  /-- `Graphics.printError(name, message)`. -/
  | printError (name msg : String)
  /-- `AudioManager.stopAll()`. -/
  | audioStopAll
  /-- `window.close()` via `SceneManager.terminate`. -/
  | windowClose
  /-- `requestAnimationFrame(SceneManager.update)`. -/
  | scheduleFrame
  deriving DecidableEq, Repr

/-- The static fields of SceneManager that the scheduling claims are
about.  `scene` is `_scene`, `nextScene` is `_nextScene`, `stack` is
`_stack` (a JS array, tail = top), `stopped` is `_stopped`,
`sceneStarted` is `_sceneStarted`, `exiting` is `_exiting`,
`previousClass` is `_previousClass` (a constructor identity),
`currentTime` is `_currentTime` (milliseconds), `accumulator` is
`_accumulator` (seconds). -/
structure State where
  scene : Option Scene
  nextScene : Option Scene
  stack : List Nat
  stopped : Bool
  sceneStarted : Bool
  exiting : Bool
  previousClass : Option Nat
  currentTime : ℚ
  accumulator : ℚ
  deriving DecidableEq, Repr

/-- The initial values of the static fields (`_currentTime` starts at
whatever `performance.now()` returned at class-load time, so it is a
parameter). -/
def initialState (t0 : ℚ) : State :=
  { scene := none
    nextScene := none
    stack := []
    stopped := false
    sceneStarted := false
    exiting := false
    previousClass := none
    currentTime := t0
    accumulator := 0 }

/-- `_deltaTime = 1.0 / 60.0`. -/
def deltaTime : ℚ := 1 / 60

/-- `isSceneChanging()`: `_exiting || !!_nextScene`. -/
def isSceneChanging (s : State) : Bool :=
  s.exiting || s.nextScene.isSome

/-- `isCurrentSceneBusy()`: `_scene && _scene.isBusy()`. -/
def isCurrentSceneBusy (s : State) : Bool :=
  match s.scene with
  | some sc => sc.isBusy
  | none => false

/-- `isCurrentSceneStarted()`: `_scene && _sceneStarted`. -/
def isCurrentSceneStarted (s : State) : Bool :=
  s.scene.isSome && s.sceneStarted

/-- `goto(sceneClass)`.  In this repository the body reads:
if the class is truthy, render it through the React/PIXI bridge
(`ReactPIXI.render(React.createElement(sceneClass), …)`; the line
`SceneManager._nextScene = new sceneClass();` is commented out);
then, if a scene is active, call its `stop()`.  No static field is
written. -/
def goto (sceneClass : Option Nat) (s : State) : State × List Event :=
  let renderEvs : List Event :=
    match sceneClass with
    | some c => [Event.reactRender c]
    | none => []
  let stopEvs : List Event :=
    match s.scene with
    | some sc => [Event.stop sc.ctor]
    | none => []
  (s, renderEvs ++ stopEvs)

/-- The JS error values that can reach `catchException`: `Error`
instances carry a `name` and a `message`; anything else is reported
as an unknown value. -/
inductive JSError where
  | error (name msg : String)
  | other (value : String)
  deriving DecidableEq, Repr

/-- `push(sceneClass)`: `_stack.push(_scene.constructor)` followed by
`goto(sceneClass)`.  When `_scene` is null, evaluating
`_scene.constructor` throws a TypeError before anything is mutated. -/
def push (sceneClass : Option Nat) (s : State) :
    Except JSError (State × List Event) :=
  match s.scene with
  | none =>
      Except.error (JSError.error "TypeError"
        "Cannot read property constructor of null")
  | some sc =>
      Except.ok (goto sceneClass { s with stack := s.stack ++ [sc.ctor] })

/-- `exit()`: `goto(null)` then `_exiting = true`. -/
def exit (s : State) : State × List Event :=
  let (s1, evs) := goto none s
  ({ s1 with exiting := true }, evs)

/-- `pop()`: if the stack is non-empty, `goto(_stack.pop())`
(JS `Array.pop` removes and returns the last element); otherwise
`exit()`. -/
def pop (s : State) : State × List Event :=
  if s.stack.length > 0 then
    goto s.stack.getLast? { s with stack := s.stack.dropLast }
  else
    exit s

/-- `changeScene()`: when a change is due (`isSceneChanging`) and the
current scene is not busy, terminate the current scene (recording its
constructor in `_previousClass`), install `_nextScene` as the current
scene, and if it is non-null call its `create()`, clear `_nextScene`,
reset `_sceneStarted` and signal `onSceneCreate` (`Graphics.startLoading`);
finally, if `_exiting`, call `SceneManager.terminate()` which is
`window.close()`. -/
def changeScene (s : State) : State × List Event :=
  if isSceneChanging s && !isCurrentSceneBusy s then
    let (s1, evs1) : State × List Event :=
      match s.scene with
      | some sc =>
          ({ s with previousClass := some sc.ctor }, [Event.terminate sc.ctor])
      | none => (s, [])
    let s2 := { s1 with scene := s1.nextScene }
    let (s3, evs2) : State × List Event :=
      match s2.scene with
      | some sc =>
          ({ s2 with nextScene := none, sceneStarted := false },
            [Event.create sc.ctor, Event.startLoading])
      | none => (s2, [])
    let evs3 : List Event := if s3.exiting then [Event.windowClose] else []
    (s3, evs1 ++ evs2 ++ evs3)
  else
    (s, [])

/-- `updateScene()`: if a scene exists and has not started but is ready,
call `start()`, set `_sceneStarted`, signal `onSceneStart`
(`Graphics.endLoading`); then, if the current scene is started, call its
`update()`. -/
def updateScene (s : State) : State × List Event :=
  match s.scene with
  | some sc =>
      let (s1, evs1) : State × List Event :=
        if !s.sceneStarted && sc.isReady then
          ({ s with sceneStarted := true },
            [Event.start sc.ctor, Event.endLoading])
        else (s, [])
      let evs2 : List Event :=
        if isCurrentSceneStarted s1 then [Event.update sc.ctor] else []
      (s1, evs1 ++ evs2)
  | none => (s, [])

/-- `renderScene()`: render the scene if it has started, otherwise show
loading progress if a scene exists. -/
def renderScene (s : State) : List Event :=
  if isCurrentSceneStarted s then
    match s.scene with
    | some sc => [Event.render sc.ctor]
    | none => []
  else
    match s.scene with
    | some _ => [Event.updateLoading]
    | none => []

/-- `requestUpdate()`: schedule the next frame callback unless
`_stopped`. -/
def requestUpdate (s : State) : List Event :=
  if !s.stopped then [Event.scheduleFrame] else []

/-- `stop()`: `_stopped = true`. -/
def stop (s : State) : State :=
  { s with stopped := true }

/-- `catchException(e)`: print the error overlay (`e.name`/`e.message`
for `Error` instances, `'UnknownError'` with the raw value otherwise),
stop all audio, and `stop()`. -/
def catchException (e : JSError) (s : State) : State × List Event :=
  match e with
  | JSError.error name msg =>
      (stop s, [Event.printError name msg, Event.audioStopAll])
  | JSError.other v =>
      (stop s, [Event.printError "UnknownError" v, Event.audioStopAll])

/-- The error-overlay name `catchException` prints for a given error. -/
def JSError.printedName : JSError → String
  | JSError.error n _ => n
  | JSError.other _ => "UnknownError"

/-- The error-overlay message `catchException` prints for a given
error. -/
def JSError.printedMsg : JSError → String
  | JSError.error _ m => m
  | JSError.other v => v

/-- The drain loop of `updateMain`:
`while (_accumulator >= _deltaTime) { updateInputData(); changeScene();
_accumulator -= _deltaTime; }`  (the `updateScene()` call inside the
loop is commented out in the source). -/
def drainLoop (s : State) : State × List Event :=
  if h : deltaTime ≤ s.accumulator then
    let r1 := changeScene s
    let r2 := drainLoop { r1.1 with accumulator := r1.1.accumulator - deltaTime }
    (r2.1, Event.inputUpdate :: (r1.2 ++ r2.2))
  else
    (s, [])
termination_by (⌊s.accumulator / deltaTime⌋).toNat
decreasing_by
  have hacc : (changeScene s).1.accumulator = s.accumulator := by
    unfold changeScene
    split
    · cases hs : s.scene <;> cases hn : s.nextScene <;> simp [hs, hn]
    · rfl
  simp only [hacc]
  have hd : (0 : ℚ) < deltaTime := by norm_num [deltaTime]
  have hne : (deltaTime : ℚ) ≠ 0 := ne_of_gt hd
  have hdiv : (s.accumulator - deltaTime) / deltaTime =
      s.accumulator / deltaTime - 1 := by
    rw [sub_div, div_self hne]
  have h1 : (1 : ℤ) ≤ ⌊s.accumulator / deltaTime⌋ := by
    rw [Int.le_floor]
    push_cast
    exact (one_le_div hd).mpr h
  rw [hdiv, Int.floor_sub_one]
  omega

/-- The clamped per-frame delta of `updateMain`:
`fTime = (newTime - _currentTime) / 1000; if (fTime > 0.25) fTime = 0.25`. -/
def clampedDelta (currentTime newTime : ℚ) : ℚ :=
  let fTime := (newTime - currentTime) / 1000
  if fTime > 1 / 4 then 1 / 4 else fTime

/-- `updateMain()`: on mobile Safari, one `changeScene` check; otherwise
sample the clock, clamp the delta, add it to the accumulator and drain
full ticks; in both cases finish the frame with `renderScene()` and
`requestUpdate()`.  (Both `updateScene()` call sites are commented out
in the source.) -/
def updateMain (isMobileSafari : Bool) (newTime : ℚ) (s : State) :
    State × List Event :=
  if isMobileSafari then
    let r := changeScene s
    (r.1, r.2 ++ renderScene r.1 ++ requestUpdate r.1)
  else
    let fTime := clampedDelta s.currentTime newTime
    let s1 := { s with currentTime := newTime,
                       accumulator := s.accumulator + fTime }
    let r := drainLoop s1
    (r.1, r.2 ++ renderScene r.1 ++ requestUpdate r.1)

/-- One frame callback `update()`: the entire frame body (tickStart,
optional input sampling, `updateMain`, tickEnd) runs inside one `try`;
a thrown error is routed to `catchException`.  The frame body is
abstracted as a function returning the state and trace it produced up
to the point it stopped, plus the error it threw there, if any. -/
def update (frameBody : State → State × List Event × Option JSError)
    (s : State) : State × List Event :=
  match frameBody s with
  | (s1, evs, none) => (s1, evs)
  | (s1, evs, some e) =>
      let r := catchException e s1
      (r.1, evs ++ r.2)

theorem deltaTime_pos : 0 < deltaTime := by norm_num [deltaTime]

theorem changeScene_exiting (s : State) :
    (changeScene s).1.exiting = s.exiting := by
  unfold changeScene
  split
  · cases hs : s.scene <;> cases hn : s.nextScene <;> simp [hs, hn]
  · rfl

theorem changeScene_no_start (s : State) (c : Nat) :
    Event.start c ∉ (changeScene s).2 := by
  unfold changeScene
  split
  · cases hs : s.scene <;> cases hn : s.nextScene <;>
      simp [hs, hn] <;> split <;> simp
  · simp

theorem drainLoop_exiting (s : State) :
    (drainLoop s).1.exiting = s.exiting := by
  induction s using drainLoop.induct with
  | case1 s h r1 ih =>
      rw [drainLoop]
      simp only [dif_pos h]
      have ih2 : (drainLoop { (changeScene s).1 with
          accumulator := (changeScene s).1.accumulator - deltaTime }).1.exiting
          = ({ (changeScene s).1 with
          accumulator := (changeScene s).1.accumulator - deltaTime } : State).exiting := ih
      rw [ih2]
      exact changeScene_exiting s
  | case2 s h =>
      rw [drainLoop]
      simp only [dif_neg h]

theorem drainLoop_acc_lt (s : State) :
    (drainLoop s).1.accumulator < deltaTime := by
  induction s using drainLoop.induct with
  | case1 s h r1 ih =>
      rw [drainLoop]
      simp only [dif_pos h]
      exact ih
  | case2 s h =>
      rw [drainLoop]
      simp only [dif_neg h]
      exact lt_of_not_le h

theorem drainLoop_no_start (s : State) (c : Nat) :
    Event.start c ∉ (drainLoop s).2 := by
  induction s using drainLoop.induct with
  | case1 s h r1 ih =>
      rw [drainLoop]
      simp only [dif_pos h]
      have ih2 : Event.start c ∉ (drainLoop { (changeScene s).1 with
          accumulator := (changeScene s).1.accumulator - deltaTime }).2 := ih
      simp only [List.mem_cons, List.mem_append]
      push_neg
      exact ⟨by simp, changeScene_no_start s c, ih2⟩
  | case2 s h =>
      rw [drainLoop]
      simp only [dif_neg h]
      simp

theorem renderScene_no_start (s : State) (c : Nat) :
    Event.start c ∉ renderScene s := by
  unfold renderScene
  split <;> split <;> simp

theorem requestUpdate_no_start (s : State) (c : Nat) :
    Event.start c ∉ requestUpdate s := by
  unfold requestUpdate
  split <;> simp

theorem updateScene_exiting (s : State) :
    (updateScene s).1.exiting = s.exiting := by
  unfold updateScene
  cases hs : s.scene <;> simp [hs]
  split <;> simp

theorem updateMain_exiting (b : Bool) (t : ℚ) (s : State) :
    (updateMain b t s).1.exiting = s.exiting := by
  unfold updateMain
  cases b
  · simp only [Bool.false_eq_true, if_false]
    rw [drainLoop_exiting]
  · simp only [if_true]
    exact changeScene_exiting s


theorem drainLoop_step (s : State) (h : deltaTime ≤ s.accumulator) :
    drainLoop s = ((drainLoop { (changeScene s).1 with
        accumulator := (changeScene s).1.accumulator - deltaTime }).1,
      Event.inputUpdate :: ((changeScene s).2 ++ (drainLoop { (changeScene s).1 with
        accumulator := (changeScene s).1.accumulator - deltaTime }).2)) := by
  rw [drainLoop]
  simp only [dif_pos h]

theorem drainLoop_stop (s : State) (h : ¬ deltaTime ≤ s.accumulator) :
    drainLoop s = (s, []) := by
  rw [drainLoop]
  simp only [dif_neg h]

/-- C1, counterexample.  The claim says that after `goto(f)` with a
non-null factory `f` the pending slot `_nextScene` holds a scene produced
from `f`.  In the code the assignment to `_nextScene` is commented out:
starting from a state with an active scene and an empty pending slot,
`goto` with factory `5` leaves `_nextScene` equal to `none` (and the
whole state unchanged); only the React render and the `stop()` call
happen. -/
theorem C1_counterexample :
    (goto (some 5) { initialState 0 with
      scene := some ⟨1, false, true⟩ }).1.nextScene = none ∧
    (goto (some 5) { initialState 0 with
      scene := some ⟨1, false, true⟩ }).2 =
      [Event.reactRender 5, Event.stop 1] := by
  exact ⟨rfl, rfl⟩

/-- C1, amended.  `goto(f)` calls `stop()` on the current scene when one
is active (and renders a non-null factory through the React bridge), but
it does not arm a pending transition: the entire SceneManager state —
`_nextScene` included — is left unchanged, and no scene is created or
terminated by the call. -/
theorem C1_goto_amended :
    ∀ (f : Option Nat) (s : State),
      (goto f s).1 = s ∧
      (∀ sc : Scene, s.scene = some sc → Event.stop sc.ctor ∈ (goto f s).2) ∧
      (s.scene = none → ∀ c : Nat, Event.stop c ∉ (goto f s).2) ∧
      (∀ c : Nat, Event.create c ∉ (goto f s).2 ∧
        Event.terminate c ∉ (goto f s).2) := by
  intro f s
  refine ⟨rfl, ?_, ?_, ?_⟩
  · intro sc hs
    unfold goto
    cases f <;> simp [hs]
  · intro hs c
    unfold goto
    cases f <;> simp [hs]
  · intro c
    unfold goto
    cases hs : s.scene <;> cases f <;> simp [hs]

/-- C1, witness for the amended theorem at factory `5` and a state with
an active scene of constructor `1`. -/
theorem C1_witness :
    (goto (some 5) { initialState 0 with
      scene := some ⟨1, false, true⟩ }).1 =
      { initialState 0 with scene := some ⟨1, false, true⟩ } ∧
    Event.stop 1 ∈ (goto (some 5) { initialState 0 with
      scene := some ⟨1, false, true⟩ }).2 := by
  have h := C1_goto_amended (some 5)
    { initialState 0 with scene := some ⟨1, false, true⟩ }
  exact ⟨h.1, h.2.1 ⟨1, false, true⟩ rfl⟩

/-- C2, counterexample.  The claim says that on every frame of the run
loop, after the simulation ticks, `updateScene` runs and starts a ready,
not-yet-started scene.  In `updateMain` both `updateScene()` call sites
are commented out: on a frame that performs one full simulation tick
(`inputUpdate` is in the trace) with a ready, unstarted, idle scene
present, no `start()` is emitted and `_sceneStarted` stays false. -/
theorem C2_counterexample :
    (updateMain false (50 / 3) { initialState 0 with
      scene := some ⟨7, false, true⟩ }).1.sceneStarted = false ∧
    (updateMain false (50 / 3) { initialState 0 with
      scene := some ⟨7, false, true⟩ }).2 =
      [Event.inputUpdate, Event.updateLoading, Event.scheduleFrame] := by
  have h60 : deltaTime ≤ ({
      scene := some ⟨7, false, true⟩
      nextScene := none
      stack := []
      stopped := false
      sceneStarted := false
      exiting := false
      previousClass := none
      currentTime := 50 / 3
      accumulator := 1 / 60 } : State).accumulator := by
    norm_num [deltaTime]
  have hchg : changeScene {
      scene := some ⟨7, false, true⟩
      nextScene := none
      stack := []
      stopped := false
      sceneStarted := false
      exiting := false
      previousClass := none
      currentTime := 50 / 3
      accumulator := 1 / 60 } =
      ({
      scene := some ⟨7, false, true⟩
      nextScene := none
      stack := []
      stopped := false
      sceneStarted := false
      exiting := false
      previousClass := none
      currentTime := 50 / 3
      accumulator := 1 / 60 }, []) := by
    unfold changeScene
    simp [isSceneChanging]
  have hstop : drainLoop {
      scene := some ⟨7, false, true⟩
      nextScene := none
      stack := []
      stopped := false
      sceneStarted := false
      exiting := false
      previousClass := none
      currentTime := 50 / 3
      accumulator := 0 } =
      ({
      scene := some ⟨7, false, true⟩
      nextScene := none
      stack := []
      stopped := false
      sceneStarted := false
      exiting := false
      previousClass := none
      currentTime := 50 / 3
      accumulator := 0 }, []) :=
    drainLoop_stop _ (by norm_num [deltaTime])
  have hstep : drainLoop {
      scene := some ⟨7, false, true⟩
      nextScene := none
      stack := []
      stopped := false
      sceneStarted := false
      exiting := false
      previousClass := none
      currentTime := 50 / 3
      accumulator := 1 / 60 } =
      ({
      scene := some ⟨7, false, true⟩
      nextScene := none
      stack := []
      stopped := false
      sceneStarted := false
      exiting := false
      previousClass := none
      currentTime := 50 / 3
      accumulator := 0 },
      [Event.inputUpdate]) := by
    rw [drainLoop_step _ h60, hchg]
    norm_num [deltaTime]
    rw [hstop]
    exact ⟨rfl, rfl⟩
  have e1 : (0 : ℚ) + clampedDelta 0 (50 / 3) = 1 / 60 := by
    norm_num [clampedDelta]
  simp only [updateMain, Bool.false_eq_true, if_false, initialState]
  rw [e1, hstep]
  simp [renderScene, requestUpdate, isCurrentSceneStarted]

/-- C2, amended.  The per-call behavior of `updateScene` is as the claim
describes — on a ready, unstarted scene it calls `start()`, sets the
started flag, and (the scene now counting as started) calls `update()`
in the same invocation; on a started scene it calls only `update()`; on
an unready, unstarted scene it does nothing — but the run loop never
invokes it: both `updateScene()` call sites in `updateMain` are
commented out, so no frame of the loop ever emits a `start()` call. -/
theorem C2_updateScene_amended :
    (∀ (s : State) (sc : Scene), s.scene = some sc → s.sceneStarted = false →
      sc.isReady = true →
      (updateScene s).1.sceneStarted = true ∧
      (updateScene s).2 =
        [Event.start sc.ctor, Event.endLoading, Event.update sc.ctor]) ∧
    (∀ (s : State) (sc : Scene), s.scene = some sc → s.sceneStarted = true →
      updateScene s = (s, [Event.update sc.ctor])) ∧
    (∀ (s : State) (sc : Scene), s.scene = some sc → s.sceneStarted = false →
      sc.isReady = false → updateScene s = (s, [])) ∧
    (∀ (b : Bool) (t : ℚ) (s : State) (c : Nat),
      Event.start c ∉ (updateMain b t s).2) := by
  refine ⟨?_, ?_, ?_, ?_⟩
  · intro s sc hs hst hr
    unfold updateScene
    simp [hs, hst, hr, isCurrentSceneStarted]
  · intro s sc hs hst
    unfold updateScene
    simp [hs, hst, isCurrentSceneStarted]
  · intro s sc hs hst hr
    unfold updateScene
    simp [hs, hst, hr, isCurrentSceneStarted]
  · intro b t s c
    unfold updateMain
    cases b
    · simp only [Bool.false_eq_true, if_false]
      simp only [List.mem_append]
      push_neg
      exact ⟨⟨drainLoop_no_start _ c, renderScene_no_start _ c⟩,
        requestUpdate_no_start _ c⟩
    · simp only [if_true]
      simp only [List.mem_append]
      push_neg
      exact ⟨⟨changeScene_no_start _ c, renderScene_no_start _ c⟩,
        requestUpdate_no_start _ c⟩

/-- C2, witness for the amended theorem: a ready, unstarted scene of
constructor `7` is started (and updated) by a direct `updateScene`
call. -/
theorem C2_witness :
    (updateScene { initialState 0 with
      scene := some ⟨7, false, true⟩ }).1.sceneStarted = true ∧
    (updateScene { initialState 0 with
      scene := some ⟨7, false, true⟩ }).2 =
      [Event.start 7, Event.endLoading, Event.update 7] := by
  exact C2_updateScene_amended.1 _ ⟨7, false, true⟩ rfl rfl rfl

/-- C3.  The per-frame delta fed into the accumulator is clamped at
0.25 s whatever the sampled times were, and both immediately after the
drain loop and at the end of a non-mobile-Safari `updateMain` frame the
accumulator is strictly below the fixed step `_deltaTime`. -/
theorem C3_accumulator_bound :
    (∀ c t : ℚ, clampedDelta c t ≤ 1 / 4) ∧
    (∀ s : State, (drainLoop s).1.accumulator < deltaTime) ∧
    (∀ (t : ℚ) (s : State),
      (updateMain false t s).1.accumulator < deltaTime) := by
  refine ⟨?_, drainLoop_acc_lt, ?_⟩
  · intro c t
    simp only [clampedDelta]
    split
    · norm_num
    · next h => linarith [not_lt.mp h]
  · intro t s
    simp only [updateMain, Bool.false_eq_true, if_false]
    exact drainLoop_acc_lt _

/-- C4.  In every transition performed by `changeScene` with an outgoing
scene, `terminate()` on the outgoing scene is the first emitted call —
in particular it precedes any `create()` — and `_previousClass` is set
to the outgoing scene's constructor. -/
theorem C4_terminate_before_create :
    ∀ (s : State) (out : Scene), s.scene = some out →
      isSceneChanging s = true → isCurrentSceneBusy s = false →
      (changeScene s).1.previousClass = some out.ctor ∧
      (changeScene s).2 =
        Event.terminate out.ctor ::
          ((match s.nextScene with
            | some inc => [Event.create inc.ctor, Event.startLoading]
            | none => []) ++
            (if s.exiting then [Event.windowClose] else [])) := by
  intro s out hs hdue hbusy
  unfold changeScene
  rw [hdue, hbusy]
  simp only [Bool.not_false, Bool.and_true, if_true]
  cases hn : s.nextScene <;> simp [hs, hn]

/-- C4, witness: a transition from a scene of constructor `1` to a
pending scene of constructor `2`. -/
theorem C4_witness :
    (changeScene { initialState 0 with
      scene := some ⟨1, false, true⟩
      nextScene := some ⟨2, false, false⟩ }).1.previousClass = some 1 ∧
    (changeScene { initialState 0 with
      scene := some ⟨1, false, true⟩
      nextScene := some ⟨2, false, false⟩ }).2 =
      [Event.terminate 1, Event.create 2, Event.startLoading] := by
  have h := C4_terminate_before_create
    { initialState 0 with
      scene := some ⟨1, false, true⟩
      nextScene := some ⟨2, false, false⟩ } ⟨1, false, true⟩ rfl rfl rfl
  exact ⟨h.1, h.2⟩

/-- C5.  While the current scene reports busy, `changeScene` performs no
transition at all — the state is unchanged and no lifecycle call is
emitted — regardless of `pending`/`exiting`; and whenever a change is
due and the current scene is not busy, the transition goes through
(`_scene` is replaced by `_nextScene`). -/
theorem C5_busy_gating :
    (∀ (s : State) (sc : Scene), s.scene = some sc → sc.isBusy = true →
      changeScene s = (s, [])) ∧
    (∀ s : State, isSceneChanging s = true → isCurrentSceneBusy s = false →
      (changeScene s).1.scene = s.nextScene) := by
  constructor
  · intro s sc hs hb
    unfold changeScene
    simp [isCurrentSceneBusy, hs, hb]
  · intro s hdue hbusy
    unfold changeScene
    rw [hdue, hbusy]
    simp only [Bool.not_false, Bool.and_true, if_true]
    cases hsc : s.scene <;> cases hn : s.nextScene <;> simp [hsc, hn]

/-- C5, witness: with a busy current scene, a pending scene and
`exiting` set, `changeScene` is a perfect no-op. -/
theorem C5_witness :
    changeScene { initialState 0 with
      scene := some ⟨1, true, true⟩
      nextScene := some ⟨2, false, false⟩
      exiting := true } =
      ({ initialState 0 with
      scene := some ⟨1, true, true⟩
      nextScene := some ⟨2, false, false⟩
      exiting := true }, []) := by
  exact C5_busy_gating.1 _ ⟨1, true, true⟩ rfl rfl

/-- C6.  `exit()` sets `exiting`; no operation ever clears it; `goto`
leaves the whole state (pending slot included) unchanged and `push`
(when it succeeds) and `pop` never install a pending scene; once
`exiting` holds and the current scene is not busy, the next
`changeScene` emits `window.close()` — ending the process, so this
transition is the last one — and (the pending slot being empty, as it
always is) installs the null scene; `window.close()` is emitted by no
other operation, and by `changeScene` only when `exiting` holds. -/
theorem C6_exit_terminality :
    (∀ s : State, (exit s).1.exiting = true) ∧
    (∀ (f : Option Nat) (s : State), (goto f s).1 = s) ∧
    (∀ (f : Option Nat) (s : State) (r : State × List Event),
      push f s = Except.ok r →
      r.1.nextScene = s.nextScene ∧ r.1.exiting = s.exiting) ∧
    (∀ s : State, (pop s).1.nextScene = s.nextScene) ∧
    (∀ s : State, (changeScene s).1.exiting = s.exiting) ∧
    (∀ s : State, (updateScene s).1.exiting = s.exiting) ∧
    (∀ (b : Bool) (t : ℚ) (s : State),
      (updateMain b t s).1.exiting = s.exiting) ∧
    (∀ s : State, s.exiting = true → isCurrentSceneBusy s = false →
      Event.windowClose ∈ (changeScene s).2 ∧
      (s.nextScene = none → (changeScene s).1.scene = none ∧
        (changeScene s).1.nextScene = none)) ∧
    (∀ s : State, Event.windowClose ∈ (changeScene s).2 → s.exiting = true) ∧
    (∀ (f : Option Nat) (s : State),
      Event.windowClose ∉ (goto f s).2 ∧
      Event.windowClose ∉ (exit s).2 ∧
      Event.windowClose ∉ (pop s).2 ∧
      Event.windowClose ∉ (updateScene s).2) := by
  refine ⟨?_, ?_, ?_, ?_, changeScene_exiting, updateScene_exiting,
    updateMain_exiting, ?_, ?_, ?_⟩
  · intro s
    rfl
  · intro f s
    rfl
  · intro f s r h
    cases hs : s.scene
    · rw [push, hs] at h
      cases h
    · rw [push, hs] at h
      cases h
      exact ⟨rfl, rfl⟩
  · intro s
    unfold pop
    split
    · rfl
    · rfl
  · intro s hex hbusy
    constructor
    · unfold changeScene
      rw [hbusy]
      simp only [isSceneChanging, hex, Bool.true_or, Bool.not_false,
        Bool.and_true, if_true]
      cases hsc : s.scene <;> cases hn : s.nextScene <;>
        simp [hsc, hn, hex]
    · intro hn
      unfold changeScene
      rw [hbusy]
      simp only [isSceneChanging, hex, Bool.true_or, Bool.not_false,
        Bool.and_true, if_true]
      cases hsc : s.scene <;> simp [hsc, hn]
  · intro s h
    by_contra hex
    rw [Bool.not_eq_true] at hex
    unfold changeScene at h
    split at h
    · have h3 : ∀ s1 : State, s1.exiting = false →
        Event.windowClose ∉ (if s1.exiting then [Event.windowClose] else ([] : List Event)) := by
        intro s1 he
        simp [he]
      revert h
      cases hsc : s.scene <;> cases hn : s.nextScene <;>
        simp [hsc, hn, hex]
    · simp at h
  · intro f s
    refine ⟨?_, ?_, ?_, ?_⟩
    · unfold goto
      cases f <;> cases hs : s.scene <;> simp [hs]
    · unfold exit goto
      cases hs : s.scene <;> simp [hs]
    · unfold pop
      split
      · unfold goto
        cases hl : s.stack.getLast? <;>
          cases hs : s.scene <;> simp [hl, hs]
      · unfold exit goto
        cases hs : s.scene <;> simp [hs]
    · unfold updateScene
      cases hs : s.scene <;> simp [hs, isCurrentSceneStarted] <;>
        split <;> simp

/-- C6, witness: from an exiting state with no scene and empty pending
slot, the next `changeScene` emits `window.close()` and leaves no
current scene. -/
theorem C6_witness :
    Event.windowClose ∈
      (changeScene { initialState 0 with exiting := true }).2 ∧
    (changeScene { initialState 0 with exiting := true }).1.scene = none := by
  have h := C6_exit_terminality
  have h8 := h.2.2.2.2.2.2.2.1 { initialState 0 with exiting := true } rfl rfl
  exact ⟨h8.1, (h8.2 rfl).1⟩

/-- C7.  `pop()` with a non-empty stack removes exactly the last pushed
factory and performs `goto` to it; with an empty stack it performs
`exit()`. -/
theorem C7_pop :
    ∀ s : State,
      (∀ h : s.stack ≠ [],
        pop s = goto (some (s.stack.getLast h))
          { s with stack := s.stack.dropLast } ∧
        s.stack.dropLast ++ [s.stack.getLast h] = s.stack) ∧
      (s.stack = [] → pop s = exit s) := by
  intro s
  constructor
  · intro h
    constructor
    · unfold pop
      rw [if_pos (List.length_pos.mpr h), List.getLast?_eq_getLast _ h]
    · exact List.dropLast_append_getLast h
  · intro h
    unfold pop
    rw [if_neg]
    simp [h]

/-- C7, witness: popping a one-element stack holding factory `3`
navigates to `3` with the stack emptied, and popping an empty stack
exits. -/
theorem C7_witness :
    pop { initialState 0 with stack := [3] } =
      goto (some 3) { initialState 0 with stack := [] } ∧
    pop (initialState 0) = exit (initialState 0) := by
  have h1 := (C7_pop { initialState 0 with stack := [3] }).1
    (by simp)
  have h2 := (C7_pop (initialState 0)).2 rfl
  exact ⟨h1.1, h2⟩

/-- C8.  `push(factory)` with a current scene appends that scene's
constructor to the navigation stack and then performs `goto(factory)`;
with no current scene it fails fast with a thrown error instead of
proceeding. -/
theorem C8_push :
    ∀ (f : Option Nat) (s : State),
      (∀ sc : Scene, s.scene = some sc →
        push f s = Except.ok
          (goto f { s with stack := s.stack ++ [sc.ctor] })) ∧
      (s.scene = none → ∃ e : JSError, push f s = Except.error e) := by
  intro f s
  constructor
  · intro sc hs
    unfold push
    rw [hs]
  · intro hs
    unfold push
    rw [hs]
    exact ⟨_, rfl⟩

/-- C8, witness: pushing factory `9` with a current scene of
constructor `4` records `4` on the stack; pushing with no current scene
throws. -/
theorem C8_witness :
    push (some 9) { initialState 0 with scene := some ⟨4, false, true⟩ } =
      Except.ok (goto (some 9) { initialState 0 with
        scene := some ⟨4, false, true⟩
        stack := [4] }) ∧
    ∃ e : JSError, push (some 9) (initialState 0) = Except.error e := by
  constructor
  · have h := (C8_push (some 9) { initialState 0 with
      scene := some ⟨4, false, true⟩ }).1 ⟨4, false, true⟩ rfl
    simpa using h
  · exact (C8_push (some 9) (initialState 0)).2 rfl

/-- C9.  Whenever the per-frame boundary of `update` catches a thrown
error, the result has `_stopped = true`, the trace contains the
`AudioManager.stopAll()` call and a `Graphics.printError` call carrying
the error's category name and message, and `requestUpdate` on the
resulting state schedules no further frame callback. -/
theorem C9_failure_boundary :
    ∀ (fb : State → State × List Event × Option JSError) (s s1 : State)
      (evs : List Event) (e : JSError),
      fb s = (s1, evs, some e) →
      (update fb s).1.stopped = true ∧
      Event.audioStopAll ∈ (update fb s).2 ∧
      Event.printError e.printedName e.printedMsg ∈ (update fb s).2 ∧
      requestUpdate (update fb s).1 = [] := by
  intro fb s s1 evs e h
  unfold update
  rw [h]
  cases e <;>
    simp [catchException, stop, requestUpdate, JSError.printedName,
      JSError.printedMsg]

/-- C9, witness: a frame body that throws a `TypeError` halts the loop
and reports it. -/
theorem C9_witness :
    (update (fun st => (st, [], some (JSError.error "TypeError" "boom")))
      (initialState 0)).1.stopped = true ∧
    Event.printError "TypeError" "boom" ∈
      (update (fun st => (st, [], some (JSError.error "TypeError" "boom")))
        (initialState 0)).2 ∧
    requestUpdate (update
      (fun st => (st, [], some (JSError.error "TypeError" "boom")))
      (initialState 0)).1 = [] := by
  have h := C9_failure_boundary
    (fun st => (st, [], some (JSError.error "TypeError" "boom")))
    (initialState 0) (initialState 0) [] (JSError.error "TypeError" "boom")
    rfl
  exact ⟨h.1, h.2.2.1, h.2.2.2⟩

/-- C10.  When no transition is due (`exiting` false and `_nextScene`
null) or the current scene is busy, `changeScene` returns the state
bit-for-bit unchanged and emits nothing. -/
theorem C10_no_transition_no_change :
    ∀ s : State,
      (s.exiting = false ∧ s.nextScene = none) ∨
        isCurrentSceneBusy s = true →
      changeScene s = (s, []) := by
  intro s h
  unfold changeScene
  rcases h with ⟨h1, h2⟩ | h
  · simp [isSceneChanging, h1, h2]
  · simp [h]

/-- C10, witness: the initial state (nothing due) is untouched, as is a
busy-scene state with a pending scene. -/
theorem C10_witness :
    changeScene (initialState 0) = (initialState 0, []) := by
  exact C10_no_transition_no_change (initialState 0) (Or.inl ⟨rfl, rfl⟩)

end SM
